import Mathlib

/-!
Verification development for the Kingdom board-game frontend.

The definitions below are shallow embeddings of the TypeScript source:
enums become inductive types, interfaces become structures, JS objects
used as string-keyed records become association lists, and the relevant
component-level computations become Lean functions.  JS string | null
fields are modelled as Option String; JS truthiness of a string value
(falsy exactly on null and the empty string) is modelled explicitly
where the source relies on it.
-/

namespace Kingdom

/-- HoldingType from src/frontend/src/types/game.ts. -/
inductive HoldingType where
  | town
  | county_castle
  | duchy_castle
  | king_castle
deriving DecidableEq

/-- TitleType from src/frontend/src/types/game.ts (baron, count, duke, king). -/
inductive TitleType where
  | baron
  | count
  | duke
  | king
deriving DecidableEq

/-- TitleType from the src/unnamed/part_010 variant of game.ts, which adds bandit. -/
inductive TitleTypeV2 where
  | bandit
  | baron
  | count
  | duke
  | king
deriving DecidableEq

/-- GamePhase from src/frontend/src/types/game.ts. -/
inductive GamePhase where
  | setup
  | income
  | player_turn
  | combat
  | upkeep
  | game_over
deriving DecidableEq

/-- ActionType from the src/unnamed/part_010 variant of game.ts. -/
inductive ActionType where
  | move
  | recruit
  | build_fortification
  | relocate_fortification
  | claim_title
  | claim_town
  | attack
  | defend
  | fake_claim
  | play_card
  | draw_card
  | end_turn
deriving DecidableEq

/-- CardType from src/frontend/src/types/game.ts. -/
inductive CardType where
  | personal_event
  | global_event
  | bonus
  | claim
deriving DecidableEq

/-- CardEffect from src/frontend/src/types/game.ts. -/
inductive CardEffect where
  | gold_5
  | gold_10
  | gold_15
  | gold_25
  | raiders
  | crusade
  | big_war
  | adventurer
  | excalibur
  | poisoned_arrows
  | forbid_mercenaries
  | talented_commander
  | vassal_revolt
  | enforce_peace
  | duel
  | spy
  | claim_x
  | claim_u
  | claim_v
  | claim_q
  | ultimate_claim
  | duchy_claim
deriving DecidableEq

/-- Holding interface from game.ts, restricted to the fields the verified
computations read.  fortifications_by_player is a JS object keyed by player id,
modelled as an association list. -/
structure Holding where
  id : String
  holding_type : HoldingType
  county : Option String
  duchy : Option String
  gold_value : Nat
  soldier_value : Nat
  owner_id : Option String
  fortification_count : Nat
  defense_modifier : Int
  attack_modifier : Int
  fortifications_by_player : List (String × Nat)
deriving DecidableEq

/-- Player interface from game.ts, restricted to the fields the verified
computations read. -/
structure Player where
  id : String
  gold : Nat
  soldiers : Nat
  title : TitleType
  counties : List String
  duchies : List String
  is_king : Bool
  holdings : List String
  hand : List String
  fortifications_placed : Nat
  claims : List String
  active_effects : List CardEffect
deriving DecidableEq

/-- Card interface from game.ts, restricted to the fields the verified
computations read. -/
structure CardInfo where
  id : String
  card_type : CardType
  effect : CardEffect
deriving DecidableEq

/-- Action interface from game.ts, restricted to the fields the verified
computations read; optional TS fields become Option. -/
structure ActionReq where
  action_type : ActionType
  player_id : String
  target_holding_id : Option String
  source_holding_id : Option String
  card_id : Option String
deriving DecidableEq

/-- Lookup in a JS object used as a record: first binding for the key, with
the JS idiom (obj[k] ?? 0) defaulting to 0. -/
def recordGetNat (m : List (String × Nat)) (k : String) : Nat :=
  match m.find? (fun p => p.1 == k) with
  | some p => p.2
  | none => 0

/-- Lookup of gameState.cards[key]: JS object indexing returning undefined
when absent, modelled as Option. -/
def cardsGet (cards : List (String × CardInfo)) (k : String) : Option CardInfo :=
  match cards.find? (fun p => p.1 == k) with
  | some p => some p.2
  | none => none

/-- getArmyCap from src/frontend/src/types/game.ts: title-table base value,
doubled under the big-war effect. -/
def getArmyCap (title : TitleType) (hasBigWarEffect : Bool) : Nat :=
  let base : Nat :=
    match title with
    | TitleType.baron => 500
    | TitleType.count => 800
    | TitleType.duke => 1200
    | TitleType.king => 2000
  if hasBigWarEffect then base * 2 else base

/-- getArmyCap from the src/unnamed/part_010 variant of game.ts, whose title
table adds bandit with base 700. -/
def getArmyCapV2 (title : TitleTypeV2) (hasBigWarEffect : Bool) : Nat :=
  let base : Nat :=
    match title with
    | TitleTypeV2.bandit => 700
    | TitleTypeV2.baron => 500
    | TitleTypeV2.count => 800
    | TitleTypeV2.duke => 1200
    | TitleTypeV2.king => 2000
  if hasBigWarEffect then base * 2 else base

/-- C9: in both getArmyCap variants the big-war effect exactly doubles the
title-determined army cap: getArmyCap title true = 2 * getArmyCap title false,
for every title (base values 500 baron, 800 count, 1200 duke, 2000 king, and
700 bandit in the part_010 variant). -/
theorem getArmyCap_bigWar_doubles :
    (∀ title : TitleType, getArmyCap title true = 2 * getArmyCap title false) ∧
    (∀ title : TitleTypeV2, getArmyCapV2 title true = 2 * getArmyCapV2 title false) := by
  constructor
  · intro title
    cases title <;> rfl
  · intro title
    cases title <;> rfl

/-- The counties paired by a duchy, as enumerated inside isHoldingInDomain in
src/unnamed/part_000: XU pairs X and U, QV pairs Q and V, anything else none. -/
def duchyCountiesOf (duchy : String) : List String :=
  if duchy == "XU" then ["X", "U"]
  else if duchy == "QV" then ["Q", "V"]
  else []

/-- JS truthiness of a string-or-null value: falsy exactly on null and the
empty string. -/
def strTruthy (s : Option String) : Bool :=
  match s with
  | none => false
  | some v => !(v == "")

/-- isHoldingInDomain from src/unnamed/part_000 (lines 14-43): a King controls
everything; a Duke controls the two counties of each held duchy and its seat;
a Count controls each held county.  The checks on holding.county reproduce the
JS truthiness guard (holding.county && ...). -/
def isHoldingInDomain (player : Player) (holding : Holding) : Bool :=
  if player.is_king then
    true
  else if player.duchies.any (fun duchy =>
      (strTruthy holding.county &&
        (duchyCountiesOf duchy).contains (holding.county.getD "")) ||
      holding.duchy == some duchy) then
    true
  else if strTruthy holding.county &&
      player.counties.contains (holding.county.getD "") then
    true
  else
    false

/-- canAttackHolding from src/unnamed/part_000 (lines 48-63): own holdings are
never attackable; holdings in the domain need the vassal-revolt effect;
everything else is attackable. -/
def canAttackHolding (player : Player) (holding : Holding) : Bool :=
  if holding.owner_id == some player.id then
    false
  else if isHoldingInDomain player holding then
    player.active_effects.contains CardEffect.vassal_revolt
  else
    true

/-- The recognized domain of a player, written out declaratively following the
claim: every holding for a King; for each held duchy both of its counties and
its seat; each held county.  A county reference participates only when the
county name is truthy (non-null, nonempty), matching the source guard. -/
def InRecognizedDomain (player : Player) (holding : Holding) : Prop :=
  player.is_king = true ∨
  (∃ duchy ∈ player.duchies,
      (∃ c, holding.county = some c ∧ c ≠ "" ∧ c ∈ duchyCountiesOf duchy) ∨
      holding.duchy = some duchy) ∨
  (∃ c, holding.county = some c ∧ c ≠ "" ∧ c ∈ player.counties)

/-- A truthiness-guarded county membership test agrees with its declarative
reading: the county exists, is nonempty, and belongs to the list. -/
theorem countyCheck_iff (county : Option String) (l : List String) :
    (strTruthy county && l.contains (county.getD "")) = true ↔
      ∃ c, county = some c ∧ c ≠ "" ∧ c ∈ l := by
  cases county with
  | none => simp [strTruthy]
  | some c =>
    simp only [strTruthy, Option.getD_some, Bool.and_eq_true, Bool.not_eq_eq_eq_not,
      Bool.not_true, beq_eq_false_iff_ne, ne_eq]
    constructor
    · rintro ⟨hne, hmem⟩
      exact ⟨c, rfl, hne, List.elem_iff.mp hmem⟩
    · rintro ⟨c2, hc2, hne, hmem⟩
      cases hc2
      exact ⟨hne, List.elem_iff.mpr hmem⟩

/-- An if-chain of three boolean early returns is their disjunction. -/
theorem ifChain3_eq_true_iff (a b c : Bool) :
    ((if a = true then true else if b = true then true else if c = true then true
      else false) = true) ↔ (a = true ∨ b = true ∨ c = true) := by
  cases a <;> cases b <;> cases c <;> simp

/-- The boolean domain test agrees with the declarative domain description. -/
theorem isHoldingInDomain_iff (player : Player) (holding : Holding) :
    isHoldingInDomain player holding = true ↔ InRecognizedDomain player holding := by
  unfold isHoldingInDomain InRecognizedDomain
  rw [ifChain3_eq_true_iff]
  refine or_congr Iff.rfl (or_congr ?_ (countyCheck_iff holding.county player.counties))
  rw [List.any_eq_true]
  constructor
  · rintro ⟨d, hd, hf⟩
    rcases (Bool.or_eq_true _ _).mp hf with h | h
    · exact ⟨d, hd, Or.inl ((countyCheck_iff holding.county (duchyCountiesOf d)).mp h)⟩
    · exact ⟨d, hd, Or.inr (by simpa using h)⟩
  · rintro ⟨d, hd, h | h⟩
    · exact ⟨d, hd, (Bool.or_eq_true _ _).mpr
        (Or.inl ((countyCheck_iff holding.county (duchyCountiesOf d)).mpr h))⟩
    · exact ⟨d, hd, (Bool.or_eq_true _ _).mpr (Or.inr (by simpa using h))⟩

/-- C2: canAttackHolding returns false on the holdings the player owns; on
holdings in the recognized domain (King: everything; Duke: the counties of
each held duchy and its seat; Count: each held county) it returns true only
if vassal_revolt is among the active effects; on every other holding it
returns true. -/
theorem canAttackHolding_spec (player : Player) (holding : Holding) :
    (holding.owner_id = some player.id → canAttackHolding player holding = false) ∧
    (holding.owner_id ≠ some player.id →
      (canAttackHolding player holding = true ↔
        (InRecognizedDomain player holding →
          CardEffect.vassal_revolt ∈ player.active_effects))) := by
  constructor
  · intro h
    unfold canAttackHolding
    simp [h]
  · intro hown
    unfold canAttackHolding
    have howneq : (holding.owner_id == some player.id) = false := by
      simpa using hown
    simp only [howneq, Bool.false_eq_true, if_false]
    by_cases hdom : isHoldingInDomain player holding = true
    · have hdomsp : InRecognizedDomain player holding :=
        (isHoldingInDomain_iff player holding).mp hdom
      simp only [hdom, if_true]
      constructor
      · intro h _
        simpa using h
      · intro h
        simpa using h hdomsp
    · have hdomsp : ¬ InRecognizedDomain player holding := fun h =>
        hdom ((isHoldingInDomain_iff player holding).mpr h)
      simp only [Bool.not_eq_true] at hdom
      simp only [hdom, Bool.false_eq_true, if_false, true_iff]
      intro h
      exact absurd h hdomsp

/-- Witness for C2 at a concrete player and holding: a Count of county X,
without vassal_revolt, cannot attack a town of county X owned by another
player. -/
theorem canAttackHolding_spec_witness :
    ((Holding.mk "x1" HoldingType.town (some "X") none 3 100 (some "p2") 0 0 0 []).owner_id ≠
        some (Player.mk "p1" 50 400 TitleType.count ["X"] [] false [] [] 0 [] []).id) ∧
    canAttackHolding (Player.mk "p1" 50 400 TitleType.count ["X"] [] false [] [] 0 [] [])
      (Holding.mk "x1" HoldingType.town (some "X") none 3 100 (some "p2") 0 0 0 []) = false := by
  refine ⟨by decide, ?_⟩
  have h := (canAttackHolding_spec
    (Player.mk "p1" 50 400 TitleType.count ["X"] [] false [] [] 0 [] [])
    (Holding.mk "x1" HoldingType.town (some "X") none 3 100 (some "p2") 0 0 0 [])).2
    (by decide)
  by_contra hne
  have htrue : canAttackHolding (Player.mk "p1" 50 400 TitleType.count ["X"] [] false [] [] 0 [] [])
      (Holding.mk "x1" HoldingType.town (some "X") none 3 100 (some "p2") 0 0 0 []) = true := by
    revert hne
    cases canAttackHolding (Player.mk "p1" 50 400 TitleType.count ["X"] [] false [] [] 0 [] [])
      (Holding.mk "x1" HoldingType.town (some "X") none 3 100 (some "p2") 0 0 0 []) <;> simp
  have := h.mp htrue
  have hmem : CardEffect.vassal_revolt ∈ ([] : List CardEffect) := by
    apply this
    exact Or.inr (Or.inr ⟨"X", rfl, by decide, by decide⟩)
  simp at hmem

/-- Per-holding rows of the income breakdown in PlayerMat.tsx, without the
display-only name string. -/
structure HoldingIncome where
  gold : Nat
  soldiers : Nat
  fortBonus : Nat
deriving DecidableEq

/-- IncomeBreakdown from PlayerMat.tsx, without the display-only titleDetails
string. -/
structure IncomeBreakdown where
  holdingDetails : List HoldingIncome
  goldFromTitles : Nat
  totalGold : Nat
  totalSoldiers : Nat
deriving DecidableEq

/-- The gold bonus of the fortifications this player has on one of their own
holdings, from PlayerMat.tsx calculateIncome: +2 for the first, +5 more for
the second. -/
def fortGoldBonus (playerForts : Nat) : Nat :=
  (if playerForts ≥ 1 then 2 else 0) + (if playerForts ≥ 2 then 5 else 0)

/-- The body of the for-loop over player.holdings in calculateIncome
(PlayerMat.tsx lines 56-76), threading the accumulated breakdown. -/
def incomeStep (player : Player) (holdings : List Holding) (acc : IncomeBreakdown)
    (holdingId : String) : IncomeBreakdown :=
  match holdings.find? (fun h => h.id == holdingId) with
  | none => acc
  | some holding =>
    let playerForts := recordGetNat holding.fortifications_by_player player.id
    let fortBonus := fortGoldBonus playerForts
    { acc with
      holdingDetails := acc.holdingDetails ++
        [⟨holding.gold_value, holding.soldier_value, fortBonus⟩]
      totalGold := acc.totalGold + (holding.gold_value + fortBonus)
      totalSoldiers := acc.totalSoldiers + holding.soldier_value }

/-- The title-stipend branch of calculateIncome (PlayerMat.tsx lines 79-88):
King +8, else Duke +4 per held duchy, else Count +2 per held county. -/
def goldFromTitlesOf (player : Player) : Nat :=
  if player.is_king then 8
  else if player.title == TitleType.duke then 4 * player.duchies.length
  else if player.title == TitleType.count then 2 * player.counties.length
  else 0

/-- calculateIncome from PlayerMat.tsx (lines 48-99): loop over the owned
holding ids accumulating holding income and fortification gold bonuses, then
add the title stipend to total gold. -/
def calculateIncome (player : Player) (holdings : List Holding) : IncomeBreakdown :=
  let afterHoldings := player.holdings.foldl (incomeStep player holdings) ⟨[], 0, 0, 0⟩
  let goldFromTitles := goldFromTitlesOf player
  { afterHoldings with
    goldFromTitles := goldFromTitles
    totalGold := afterHoldings.totalGold + goldFromTitles }

/-- The holdings the loop actually visits: each owned holding id resolved
against the holdings list (ids with no match contribute nothing). -/
def resolvedHoldings (player : Player) (holdings : List Holding) : List Holding :=
  player.holdings.filterMap (fun holdingId => holdings.find? (fun h => h.id == holdingId))

/-- Closed form of the loop accumulator. -/
theorem foldl_incomeStep (player : Player) (holdings : List Holding)
    (ids : List String) (acc : IncomeBreakdown) :
    ids.foldl (incomeStep player holdings) acc =
      { acc with
        holdingDetails := acc.holdingDetails ++
          (ids.filterMap (fun holdingId => holdings.find? (fun h => h.id == holdingId))).map
            (fun h => ⟨h.gold_value, h.soldier_value,
              fortGoldBonus (recordGetNat h.fortifications_by_player player.id)⟩)
        totalGold := acc.totalGold +
          ((ids.filterMap (fun holdingId => holdings.find? (fun h => h.id == holdingId))).map
            (fun h => h.gold_value +
              fortGoldBonus (recordGetNat h.fortifications_by_player player.id))).sum
        totalSoldiers := acc.totalSoldiers +
          ((ids.filterMap (fun holdingId => holdings.find? (fun h => h.id == holdingId))).map
            (fun h => h.soldier_value)).sum } := by
  induction ids generalizing acc with
  | nil => simp
  | cons holdingId ids ih =>
    rw [List.foldl_cons, ih]
    unfold incomeStep
    cases hfind : holdings.find? (fun h => h.id == holdingId) with
    | none => simp [hfind]
    | some holding =>
      cases acc
      simp only [List.filterMap_cons, hfind, List.map_cons, List.sum_cons,
        IncomeBreakdown.mk.injEq]
      refine ⟨by simp, trivial, by omega, by omega⟩

/-- C3: calculateIncome equals the sum over the resolved owned holdings of
gold_value plus the player-fort gold bonus (gold) and soldier_value
(soldiers), plus the title stipend (King +8, Duke +4 per held duchy, Count
+2 per held county) on the gold side. -/
theorem calculateIncome_spec (player : Player) (holdings : List Holding) :
    (calculateIncome player holdings).totalGold =
        ((resolvedHoldings player holdings).map
          (fun h => h.gold_value +
            fortGoldBonus (recordGetNat h.fortifications_by_player player.id))).sum +
        goldFromTitlesOf player ∧
    (calculateIncome player holdings).totalSoldiers =
        ((resolvedHoldings player holdings).map (fun h => h.soldier_value)).sum ∧
    (calculateIncome player holdings).goldFromTitles = goldFromTitlesOf player := by
  unfold calculateIncome resolvedHoldings
  rw [foldl_incomeStep]
  simp

/-- fortAttackBonus from src/frontend/src/components/DefenseModal.tsx (lines
44-45): tiered fortification bonus of the attack-source holding, +1 for the
first fort, +2 for the second, +2 for the third; a missing source holding
counts as 0 forts. -/
def fortAttackBonus (sourceHolding : Option Holding) : Nat :=
  let fortCount := match sourceHolding with
    | none => 0
    | some h => h.fortification_count
  (if fortCount ≥ 1 then 1 else 0) + (if fortCount ≥ 2 then 2 else 0) +
    (if fortCount ≥ 3 then 2 else 0)

/-- The fortification bonus shown in the defense section of
src/frontend/src/components/DefenseModal.tsx (line 121): the same tiered
formula applied to the target holding. -/
def defenseFortBonusDisplay (target : Holding) : Nat :=
  (if target.fortification_count ≥ 1 then 1 else 0) +
    (if target.fortification_count ≥ 2 then 2 else 0) +
    (if target.fortification_count ≥ 3 then 2 else 0)

/-- The fortification defense bonus shown in the target preview of
src/frontend/src/components/CombatPrepModal.tsx (line 76):
fortification_count * 2. -/
def combatPrepFortBonusDisplay (target : Holding) : Nat :=
  target.fortification_count * 2

/-- The fortification bonus shown by the DefenseModal variant in
src/unnamed/part_006 (line 82): fortification_count plus 2 when at least 2
and 2 more when at least 3. -/
def defenseVariantFortBonusDisplay (target : Holding) : Nat :=
  target.fortification_count + (if target.fortification_count ≥ 2 then 2 else 0) +
    (if target.fortification_count ≥ 3 then 2 else 0)

/-- A holding whose only relevant datum is its fortification count, used to
evaluate the display formulas at concrete counts. -/
def mkFortHolding (n : Nat) : Holding :=
  ⟨"t", HoldingType.town, some "X", none, 3, 100, none, n, 0, 0, []⟩

/-- C1 counterexample: on a holding with a single fortification the claim
says every display shows +1, but the CombatPrepModal target preview shows
fortification_count * 2 = +2 (and the part_006 DefenseModal variant shows +4
at two forts where the tiered value is +3). -/
theorem fortBonus_claim_false :
    combatPrepFortBonusDisplay (mkFortHolding 1) = 2 ∧
    fortAttackBonus (some (mkFortHolding 1)) = 1 ∧
    defenseVariantFortBonusDisplay (mkFortHolding 2) = 4 ∧
    defenseFortBonusDisplay (mkFortHolding 2) = 3 ∧
    (2 : Nat) ≠ 1 ∧ (4 : Nat) ≠ 3 := by
  refine ⟨rfl, rfl, rfl, rfl, by decide, by decide⟩

/-- C1 amended: DefenseModal.tsx computes the tiered cumulative bonus
(+1, +3, +5 for 1, 2, 3 forts) both for the attack-source forts and in its
defense display, but the CombatPrepModal target preview shows twice the fort
count (+2, +4, +6) and the part_006 DefenseModal variant shows the fort count
plus the second and third tier increments (+1, +4, +7). -/
theorem fortBonus_displays :
    (fortAttackBonus (some (mkFortHolding 0)) = 0 ∧
     fortAttackBonus (some (mkFortHolding 1)) = 1 ∧
     fortAttackBonus (some (mkFortHolding 2)) = 3 ∧
     fortAttackBonus (some (mkFortHolding 3)) = 5 ∧
     fortAttackBonus none = 0) ∧
    (defenseFortBonusDisplay (mkFortHolding 1) = 1 ∧
     defenseFortBonusDisplay (mkFortHolding 2) = 3 ∧
     defenseFortBonusDisplay (mkFortHolding 3) = 5) ∧
    (combatPrepFortBonusDisplay (mkFortHolding 1) = 2 ∧
     combatPrepFortBonusDisplay (mkFortHolding 2) = 4 ∧
     combatPrepFortBonusDisplay (mkFortHolding 3) = 6) ∧
    (defenseVariantFortBonusDisplay (mkFortHolding 1) = 1 ∧
     defenseVariantFortBonusDisplay (mkFortHolding 2) = 4 ∧
     defenseVariantFortBonusDisplay (mkFortHolding 3) = 7) := by
  exact ⟨⟨rfl, rfl, rfl, rfl, rfl⟩, ⟨rfl, rfl, rfl⟩, ⟨rfl, rfl, rfl⟩, ⟨rfl, rfl, rfl⟩⟩

/-- The remaining-fortifications figure displayed by
src/frontend/src/components/ActionPanel.tsx (line 231):
2 - fortifications_placed, as JS signed arithmetic. -/
def fortifyRemainingDisplay (player : Player) : Int :=
  2 - (player.fortifications_placed : Int)

/-- The remaining-fortifications figure displayed by the ActionPanel variant
in src/unnamed/part_001 (line 283): 4 - (fortifications_placed || 0). -/
def fortifyRemainingDisplayV1 (player : Player) : Int :=
  4 - (player.fortifications_placed : Int)

/-- The tooltip of the disabled build-fortification button in
src/unnamed/part_002 (lines 417-427), attributing unavailability to the
first violated limit: global cap 4, gold 10, per-town cap 3, per-owner cap 2. -/
def fortDisabledReason (player : Player) (selectedHolding : Holding)
    (playerFortsOnSelected : Nat) : String :=
  if player.fortifications_placed ≥ 4 then "Max 4 fortifications placed"
  else if player.gold < 10 then "Need 10 gold"
  else if selectedHolding.fortification_count ≥ 3 then "Town has max fortifications"
  else if playerFortsOnSelected ≥ 2 then "You already have 2 fortifications here"
  else "Cannot build here"

/-- A player with no fortifications placed, used to evaluate the panel
displays at a concrete input. -/
def mkFortPanelPlayer : Player :=
  ⟨"p1", 50, 400, TitleType.baron, [], [], false, [], [], 0, [], []⟩

/-- C4 counterexample: the claim says the action panel shows
4 - fortifications_placed remaining placements, but ActionPanel.tsx shows
2 - fortifications_placed: with 0 placed it displays 2, not 4. -/
theorem fortifyRemaining_claim_false :
    mkFortPanelPlayer.fortifications_placed = 0 ∧
    fortifyRemainingDisplay mkFortPanelPlayer = 2 ∧
    (2 : Int) ≠ 4 - 0 := by
  refine ⟨rfl, rfl, by decide⟩

/-- C4 amended: the global fortification cap is 4, and the part_001 action
panel shows the remaining placements as 4 - fortifications_placed, but
ActionPanel.tsx shows 2 - fortifications_placed; the part_002 disabled
build-fortification tooltip attributes unavailability to the limits in order
(fortifications_placed at least 4, gold below 10, town total at least 3, own
forts on the town at least 2), so it reaches its final fallback message
exactly when fortifications_placed < 4, gold at least 10, the town total is
below 3, and the own count there is below 2. -/
theorem fortifyPanel_displays (player : Player) (selectedHolding : Holding)
    (playerFortsOnSelected : Nat) :
    fortifyRemainingDisplayV1 player = 4 - (player.fortifications_placed : Int) ∧
    fortifyRemainingDisplay player = 2 - (player.fortifications_placed : Int) ∧
    (fortDisabledReason player selectedHolding playerFortsOnSelected =
        "Cannot build here" ↔
      player.fortifications_placed < 4 ∧ 10 ≤ player.gold ∧
        selectedHolding.fortification_count < 3 ∧ playerFortsOnSelected < 2) := by
  refine ⟨rfl, rfl, ?_⟩
  unfold fortDisabledReason
  by_cases h1 : player.fortifications_placed ≥ 4
  · simp only [h1, if_true]
    constructor
    · intro h
      exact absurd h (by decide)
    · intro h
      omega
  · by_cases h2 : player.gold < 10
    · simp only [h1, h2, if_false, if_true]
      constructor
      · intro h
        exact absurd h (by decide)
      · intro h
        omega
    · by_cases h3 : selectedHolding.fortification_count ≥ 3
      · simp only [h1, h2, h3, if_false, if_true]
        constructor
        · intro h
          exact absurd h (by decide)
        · intro h
          omega
      · by_cases h4 : playerFortsOnSelected ≥ 2
        · simp only [h1, h2, h3, h4, if_false, if_true]
          constructor
          · intro h
            exact absurd h (by decide)
          · intro h
            omega
        · simp only [h1, h2, h3, h4, if_false]
          constructor
          · intro _
            omega
          · intro _
            trivial

/-- Witness for C4: a concrete player and town where every limit is
respected, so the disabled-tooltip fallback characterization applies with all
its conditions discharged. -/
theorem fortifyPanel_displays_witness :
    fortDisabledReason mkFortPanelPlayer (mkFortHolding 0) 0 = "Cannot build here" := by
  have h := (fortifyPanel_displays mkFortPanelPlayer (mkFortHolding 0) 0).2.2
  exact h.mpr (by refine ⟨by decide, by decide, by decide, by decide⟩)

/-- minSoldiers from src/frontend/src/components/CombatPrepModal.tsx
(line 24): minimum of the soldier-commitment slider. -/
def minSoldiers : Nat := 200

/-- Initial slider value in CombatPrepModal.tsx (line 21):
min(200, currentPlayer.soldiers). -/
def initialSoldiersToCommit (currentPlayer : Player) : Nat :=
  min 200 currentPlayer.soldiers

/-- canAttack from CombatPrepModal.tsx (line 26):
currentPlayer.soldiers at least minSoldiers. -/
def canAttack (currentPlayer : Player) : Bool :=
  decide (minSoldiers ≤ currentPlayer.soldiers)

/-- handleAttack from CombatPrepModal.tsx (lines 41-45): fires the attack
with the committed soldiers only when canAttack holds, otherwise does
nothing (modelled as the optional commitment passed to onAttack). -/
def handleAttack (currentPlayer : Player) (soldiersToCommit : Nat) : Option Nat :=
  if canAttack currentPlayer then some soldiersToCommit else none

/-- The values the soldiersToCommit state can take in CombatPrepModal.tsx:
its initial value, or any value emitted by the range input, which is bounded
by the slider minimum 200 and maximum currentPlayer.soldiers. -/
inductive SliderReachable (currentPlayer : Player) : Nat → Prop where
  | init : SliderReachable currentPlayer (initialSoldiersToCommit currentPlayer)
  | update (v : Nat) : minSoldiers ≤ v → v ≤ currentPlayer.soldiers →
      SliderReachable currentPlayer v

/-- C5: the attack can be launched only with at least 200 soldiers available,
the slider minimum is 200, the initial commitment is min(200, soldiers), the
launch handler does nothing below 200 soldiers, and every launched attack
commits at least 200 soldiers. -/
theorem combatPrep_min_commit (currentPlayer : Player) (v : Nat)
    (hv : SliderReachable currentPlayer v) :
    (canAttack currentPlayer = true ↔ 200 ≤ currentPlayer.soldiers) ∧
    minSoldiers = 200 ∧
    initialSoldiersToCommit currentPlayer = min 200 currentPlayer.soldiers ∧
    (currentPlayer.soldiers < 200 → handleAttack currentPlayer v = none) ∧
    (∀ w, handleAttack currentPlayer v = some w →
      200 ≤ w ∧ 200 ≤ currentPlayer.soldiers) := by
  refine ⟨by simp [canAttack, minSoldiers], rfl, rfl, ?_, ?_⟩
  · intro hlt
    unfold handleAttack
    have : canAttack currentPlayer = false := by
      simp [canAttack, minSoldiers]
      omega
    simp [this]
  · intro w hw
    unfold handleAttack at hw
    by_cases hca : canAttack currentPlayer = true
    · have hsol : 200 ≤ currentPlayer.soldiers := by
        simpa [canAttack, minSoldiers] using hca
      simp only [hca, if_true, Option.some.injEq] at hw
      subst hw
      refine ⟨?_, hsol⟩
      cases hv with
      | init =>
        unfold initialSoldiersToCommit
        omega
      | update v hlo hhi =>
        simpa [minSoldiers] using hlo
    · simp only [Bool.not_eq_true] at hca
      simp [hca] at hw

/-- Witness for C5 at a concrete player with 400 soldiers: the initial
commitment 200 is reachable and the launched attack commits 200. -/
theorem combatPrep_min_commit_witness :
    200 ≤ (200 : Nat) ∧
      200 ≤ (Player.mk "p1" 50 400 TitleType.baron [] [] false [] [] 0 [] []).soldiers := by
  have hv : SliderReachable (Player.mk "p1" 50 400 TitleType.baron [] [] false [] [] 0 [] []) 200 := by
    have h : SliderReachable (Player.mk "p1" 50 400 TitleType.baron [] [] false [] [] 0 [] [])
        (initialSoldiersToCommit (Player.mk "p1" 50 400 TitleType.baron [] [] false [] [] 0 [] [])) :=
      SliderReachable.init
    simpa [initialSoldiersToCommit] using h
  exact (combatPrep_min_commit
    (Player.mk "p1" 50 400 TitleType.baron [] [] false [] [] 0 [] []) 200 hv).2.2.2.2 200 rfl

/-- The claim-title cost figure computed in the ActionPanel variant of
src/unnamed/part_002 (lines 310-312) from the optionally found target
holding: 25 for a county seat, 50 for a duchy seat, 75 for the kingdom seat,
0 otherwise. -/
def claimTitleCost (holding : Option Holding) : Nat :=
  if (holding.map Holding.holding_type) == some HoldingType.county_castle then 25
  else if (holding.map Holding.holding_type) == some HoldingType.duchy_castle then 50
  else if (holding.map Holding.holding_type) == some HoldingType.king_castle then 75
  else 0

/-- C6: the claim_title cost offered is exactly 25 gold at a county seat,
50 gold at a duchy seat, and 75 gold at the kingdom seat. -/
theorem claimTitleCost_spec (holding : Holding) :
    (holding.holding_type = HoldingType.county_castle →
      claimTitleCost (some holding) = 25) ∧
    (holding.holding_type = HoldingType.duchy_castle →
      claimTitleCost (some holding) = 50) ∧
    (holding.holding_type = HoldingType.king_castle →
      claimTitleCost (some holding) = 75) := by
  refine ⟨?_, ?_, ?_⟩ <;> intro ht <;> simp [claimTitleCost, ht]

/-- Witness for C6 at a concrete county seat. -/
theorem claimTitleCost_spec_witness :
    claimTitleCost
      (some ⟨"x_castle", HoldingType.county_castle, some "X", none, 5, 0, none, 0, 1, 0, []⟩) = 25 := by
  exact (claimTitleCost_spec
    ⟨"x_castle", HoldingType.county_castle, some "X", none, 5, 0, none, 0, 1, 0, []⟩).1 rfl

/-- groupedActions.play_card from src/unnamed/part_000: the play_card
subsequence of validActions (the reduce groups actions by type, preserving
order). -/
def playCardActions (validActions : List ActionReq) : List ActionReq :=
  validActions.filter (fun a => a.action_type == ActionType.play_card)

/-- claimCardsForSelected from src/unnamed/part_000 (lines 151-168): when a
holding is selected and attackable, the play_card actions whose card is a
claim card matching the holding (claim_x/u/v/q require the matching county;
ultimate_claim and duchy_claim always match); otherwise none. -/
def claimCardsForSelected (cards : List (String × CardInfo))
    (validActions : List ActionReq) (currentPlayer : Player)
    (selectedHolding : Option Holding) : List ActionReq :=
  match selectedHolding with
  | none => []
  | some sh =>
    if canAttackHolding currentPlayer sh then
      (playCardActions validActions).filter (fun action =>
        match cardsGet cards (action.card_id.getD "") with
        | none => false
        | some card =>
          if card.card_type != CardType.claim then false
          else if card.effect == CardEffect.claim_x && sh.county == some "X" then true
          else if card.effect == CardEffect.claim_u && sh.county == some "U" then true
          else if card.effect == CardEffect.claim_v && sh.county == some "V" then true
          else if card.effect == CardEffect.claim_q && sh.county == some "Q" then true
          else if card.effect == CardEffect.ultimate_claim then true
          else if card.effect == CardEffect.duchy_claim then true
          else false)
    else []

/-- The scope-matching rule of claim cards, stated declaratively. -/
def ClaimCardMatches (effect : CardEffect) (county : Option String) : Prop :=
  (effect = CardEffect.claim_x ∧ county = some "X") ∨
  (effect = CardEffect.claim_u ∧ county = some "U") ∨
  (effect = CardEffect.claim_v ∧ county = some "V") ∨
  (effect = CardEffect.claim_q ∧ county = some "Q") ∨
  effect = CardEffect.ultimate_claim ∨
  effect = CardEffect.duchy_claim

/-- The per-action filter body of claimCardsForSelected agrees with the
declarative claim-card matching rule. -/
theorem claimCardFilter_iff (card : CardInfo) (sh : Holding) :
    ((if card.card_type != CardType.claim then false
      else if card.effect == CardEffect.claim_x && sh.county == some "X" then true
      else if card.effect == CardEffect.claim_u && sh.county == some "U" then true
      else if card.effect == CardEffect.claim_v && sh.county == some "V" then true
      else if card.effect == CardEffect.claim_q && sh.county == some "Q" then true
      else if card.effect == CardEffect.ultimate_claim then true
      else if card.effect == CardEffect.duchy_claim then true
      else false) = true) ↔
      (card.card_type = CardType.claim ∧ ClaimCardMatches card.effect sh.county) := by
  cases hct : card.card_type <;> cases heff : card.effect <;>
    simp [ClaimCardMatches, hct, heff]

/-- C7: an action is among the claim cards offered on a selected holding
exactly when it is a valid play_card action, its card is a claim card, the
holding is attackable by the current player (vassal protection respected),
and the card matches the holding scope (claim_x/u/v/q need county X/U/V/Q;
ultimate_claim and duchy_claim match any holding). -/
theorem claimCardsForSelected_spec (cards : List (String × CardInfo))
    (validActions : List ActionReq) (currentPlayer : Player) (sh : Holding)
    (action : ActionReq) :
    action ∈ claimCardsForSelected cards validActions currentPlayer (some sh) ↔
      action ∈ validActions ∧ action.action_type = ActionType.play_card ∧
      canAttackHolding currentPlayer sh = true ∧
      ∃ card, cardsGet cards (action.card_id.getD "") = some card ∧
        card.card_type = CardType.claim ∧
        ClaimCardMatches card.effect sh.county := by
  unfold claimCardsForSelected
  by_cases hatt : canAttackHolding currentPlayer sh = true
  · simp only [hatt, if_true]
    rw [List.mem_filter]
    unfold playCardActions
    rw [List.mem_filter]
    constructor
    · rintro ⟨⟨hmem, htype⟩, hpred⟩
      refine ⟨hmem, by simpa using htype, trivial, ?_⟩
      cases hcg : cardsGet cards (action.card_id.getD "") with
      | none => rw [hcg] at hpred; exact absurd hpred (by simp)
      | some card =>
        rw [hcg] at hpred
        obtain ⟨hclaim, hmatch⟩ := (claimCardFilter_iff card sh).mp hpred
        exact ⟨card, rfl, hclaim, hmatch⟩
    · rintro ⟨hmem, htype, -, card, hcg, hclaim, hmatch⟩
      refine ⟨⟨hmem, by simpa using htype⟩, ?_⟩
      rw [hcg]
      exact (claimCardFilter_iff card sh).mpr ⟨hclaim, hmatch⟩
  · simp only [Bool.not_eq_true] at hatt
    simp [hatt]

/-- Witness for C7: a claim_x card is offered on an attackable county-X town. -/
theorem claimCardsForSelected_spec_witness :
    (ActionReq.mk ActionType.play_card "p1" none none (some "c1")) ∈
      claimCardsForSelected [("c1", ⟨"c1", CardType.claim, CardEffect.claim_x⟩)]
        [ActionReq.mk ActionType.play_card "p1" none none (some "c1")]
        mkFortPanelPlayer (some (mkFortHolding 0)) := by
  apply (claimCardsForSelected_spec
    [("c1", ⟨"c1", CardType.claim, CardEffect.claim_x⟩)]
    [ActionReq.mk ActionType.play_card "p1" none none (some "c1")]
    mkFortPanelPlayer (mkFortHolding 0)
    (ActionReq.mk ActionType.play_card "p1" none none (some "c1"))).mpr
  refine ⟨?_, ?_, ?_, ?_⟩
  · simp
  · rfl
  · rfl
  · exact ⟨⟨"c1", CardType.claim, CardEffect.claim_x⟩, rfl, rfl, Or.inl ⟨rfl, rfl⟩⟩

/-- MAX_ACTIONS_PER_TURN from src/frontend/src/components/GameBoard.tsx
(line 145). -/
def MAX_ACTIONS_PER_TURN : Nat := 15

/-- One simulation-step response as the AI loop reads it: whether the fetch
succeeded, and if a state came back, its current_player_idx and phase. -/
structure StepResponse where
  ok : Bool
  newState : Option (Nat × GamePhase)
deriving DecidableEq

/-- The while-loop of runAITurn in GameBoard.tsx (lines 159-217): while the
action count is below MAX_ACTIONS_PER_TURN, count a request and consult its
response; break on a failed fetch, a missing state, or a state whose player
or phase shows the turn ended, else continue.  The fuel argument only bounds
the recursion and never runs out before the counter guard (fuel starts at
MAX_ACTIONS_PER_TURN and one unit covers each increment of actionCount). -/
def runAITurnLoop (resp : Nat → StepResponse) (startingPlayerIdx : Nat) :
    Nat → Nat → Nat
  | 0, actionCount => actionCount
  | fuel + 1, actionCount =>
    if actionCount < MAX_ACTIONS_PER_TURN then
      let n := actionCount + 1
      let r := resp n
      if r.ok then
        match r.newState with
        | some st =>
          if st.1 = startingPlayerIdx ∧ st.2 = GamePhase.player_turn then
            runAITurnLoop resp startingPlayerIdx fuel n
          else n
        | none => n
      else n
    else actionCount

/-- The number of simulation-step requests performed by one run of the AI
turn loop (each loop iteration makes exactly one request, so the final action
count is that number). -/
def aiStepRequests (resp : Nat → StepResponse) (startingPlayerIdx : Nat) : Nat :=
  runAITurnLoop resp startingPlayerIdx MAX_ACTIONS_PER_TURN 0

/-- The force-end-turn condition after the loop in GameBoard.tsx (line 220):
an end_turn action is submitted when actionCount reached
MAX_ACTIONS_PER_TURN. -/
def aiForcedEndTurn (resp : Nat → StepResponse) (startingPlayerIdx : Nat) : Bool :=
  decide (MAX_ACTIONS_PER_TURN ≤ aiStepRequests resp startingPlayerIdx)

/-- The loop counter never exceeds MAX_ACTIONS_PER_TURN. -/
theorem runAITurnLoop_le (resp : Nat → StepResponse) (startingPlayerIdx : Nat)
    (fuel actionCount : Nat) (h : actionCount ≤ MAX_ACTIONS_PER_TURN) :
    runAITurnLoop resp startingPlayerIdx fuel actionCount ≤ MAX_ACTIONS_PER_TURN := by
  induction fuel generalizing actionCount with
  | zero => simpa [runAITurnLoop] using h
  | succ fuel ih =>
    unfold runAITurnLoop
    by_cases hlt : actionCount < MAX_ACTIONS_PER_TURN
    · simp only [hlt, if_true]
      cases hok : (resp (actionCount + 1)).ok with
      | false => simp [hok]; omega
      | true =>
        simp only [hok, if_true]
        cases hst : (resp (actionCount + 1)).newState with
        | none => simp; omega
        | some st =>
          by_cases hcont : st.1 = startingPlayerIdx ∧ st.2 = GamePhase.player_turn
          · simp only [hcont, if_true]
            exact ih (actionCount + 1) (by omega)
          · simp only [hcont, if_false]
            omega
    · simp only [hlt, if_false]
      exact h

/-- C8: the AI turn loop makes at most 15 (MAX_ACTIONS_PER_TURN) simulation
step requests, it terminates for every stream of step responses (it is a
total function of the response stream), and whenever the limit is reached an
end_turn action is submitted for the AI player. -/
theorem runAITurn_bounded (resp : Nat → StepResponse) (startingPlayerIdx : Nat) :
    aiStepRequests resp startingPlayerIdx ≤ MAX_ACTIONS_PER_TURN ∧
    (aiStepRequests resp startingPlayerIdx = MAX_ACTIONS_PER_TURN →
      aiForcedEndTurn resp startingPlayerIdx = true) := by
  constructor
  · exact runAITurnLoop_le resp startingPlayerIdx MAX_ACTIONS_PER_TURN 0 (by omega)
  · intro h
    unfold aiForcedEndTurn
    rw [h]
    decide

/-- Witness for C8 on a response stream that never ends the turn: the loop
performs exactly 15 requests and the forced end_turn fires. -/
theorem runAITurn_bounded_witness :
    aiStepRequests (fun _ => ⟨true, some (0, GamePhase.player_turn)⟩) 0 ≤
        MAX_ACTIONS_PER_TURN ∧
      aiForcedEndTurn (fun _ => ⟨true, some (0, GamePhase.player_turn)⟩) 0 = true := by
  have h := runAITurn_bounded (fun _ => ⟨true, some (0, GamePhase.player_turn)⟩) 0
  exact ⟨h.1, h.2 (by decide)⟩

/-- GameState as read by the store getters in
src/frontend/src/store/gameStore.ts, restricted to the fields
getHoldingOwner reads. -/
structure GameState where
  players : List Player
  holdings : List Holding
deriving DecidableEq

/-- getHoldingOwner from src/frontend/src/store/gameStore.ts (lines 74-80):
null without a loaded game state; find the holding by id; the JS guard
(!holding || !holding.owner_id) treats a null or empty-string owner as
unowned; otherwise the first player with the owner id, or null. -/
def getHoldingOwner (gameState : Option GameState) (holdingId : String) :
    Option Player :=
  match gameState with
  | none => none
  | some state =>
    match state.holdings.find? (fun h => h.id == holdingId) with
    | none => none
    | some holding =>
      match holding.owner_id with
      | none => none
      | some ownerId =>
        if ownerId == "" then none
        else state.players.find? (fun p => p.id == ownerId)

/-- The holding of the C10 counterexample: owner_id is the empty string. -/
def cexHolding10 : Holding :=
  ⟨"t1", HoldingType.town, some "X", none, 3, 100, some "", 0, 0, 0, []⟩

/-- The player of the C10 counterexample: its id is the empty string. -/
def cexPlayer10 : Player :=
  ⟨"", 0, 0, TitleType.baron, [], [], false, ["t1"], [], 0, [], []⟩

/-- The game state of the C10 counterexample. -/
def cexState10 : GameState := ⟨[cexPlayer10], [cexHolding10]⟩

/-- C10 counterexample: a loaded state, a holding found for the id, a
non-null owner_id, and a player whose id equals that owner_id, yet
getHoldingOwner returns null, because the JS falsy test on owner_id also
rejects the empty string. -/
theorem getHoldingOwner_claim_false :
    getHoldingOwner (some cexState10) "t1" = none ∧
    cexState10.holdings.find? (fun h => h.id == "t1") = some cexHolding10 ∧
    cexHolding10.owner_id = some "" ∧
    cexState10.players.find? (fun p => p.id == "") = some cexPlayer10 := by
  exact ⟨rfl, rfl, rfl, rfl⟩

/-- C10 amended: getHoldingOwner is total and returns null exactly when no
game state is loaded, no holding has the id, the owner_id of the holding is
null or the empty string (the JS falsy test), or no player has that id; in
every other case it returns the first player whose id equals owner_id. -/
theorem getHoldingOwner_spec (gameState : Option GameState) (holdingId : String) :
    (getHoldingOwner gameState holdingId = none ↔
      gameState = none ∨
      ∃ state, gameState = some state ∧
        (state.holdings.find? (fun h => h.id == holdingId) = none ∨
         ∃ holding, state.holdings.find? (fun h => h.id == holdingId) = some holding ∧
           (holding.owner_id = none ∨ holding.owner_id = some "" ∨
            ∃ ownerId, holding.owner_id = some ownerId ∧
              state.players.find? (fun p => p.id == ownerId) = none))) ∧
    (∀ player, getHoldingOwner gameState holdingId = some player →
      ∃ state holding ownerId, gameState = some state ∧
        state.holdings.find? (fun h => h.id == holdingId) = some holding ∧
        holding.owner_id = some ownerId ∧ ownerId ≠ "" ∧
        state.players.find? (fun p => p.id == ownerId) = some player) := by
  cases gameState with
  | none =>
    refine ⟨?_, ?_⟩
    · simp [getHoldingOwner]
    · intro player h
      simp [getHoldingOwner] at h
  | some state =>
    simp only [getHoldingOwner]
    cases hfind : state.holdings.find? (fun h => h.id == holdingId) with
    | none =>
      simp only [hfind]
      refine ⟨?_, ?_⟩
      · constructor
        · intro _
          exact Or.inr ⟨state, rfl, Or.inl hfind⟩
        · intro _
          trivial
      · intro player h
        simp at h
    | some holding =>
      simp only [hfind]
      cases how : holding.owner_id with
      | none =>
        simp only [how]
        refine ⟨?_, ?_⟩
        · constructor
          · intro _
            exact Or.inr ⟨state, rfl, Or.inr ⟨holding, hfind, Or.inl how⟩⟩
          · intro _
            trivial
        · intro player h
          simp at h
      | some ownerId =>
        simp only [how]
        by_cases hemp : (ownerId == "") = true
        · have hid : ownerId = "" := by simpa using hemp
          subst hid
          simp only [hemp, if_true]
          refine ⟨?_, ?_⟩
          · constructor
            · intro _
              exact Or.inr ⟨state, rfl, Or.inr ⟨holding, hfind, Or.inr (Or.inl how)⟩⟩
            · intro _
              trivial
          · intro player h
            simp at h
        · have hne : ownerId ≠ "" := by simpa using hemp
          simp only [hemp, if_false]
          cases hpfind : state.players.find? (fun p => p.id == ownerId) with
          | none =>
            refine ⟨?_, ?_⟩
            · constructor
              · intro _
                exact Or.inr ⟨state, rfl, Or.inr ⟨holding, hfind,
                  Or.inr (Or.inr ⟨ownerId, how, hpfind⟩)⟩⟩
              · intro _
                trivial
            · intro player h
              simp at h
          | some player0 =>
            refine ⟨?_, ?_⟩
            · constructor
              · intro h
                simp at h
              · intro hrhs
                exfalso
                rcases hrhs with h | ⟨state2, hst, hrest⟩
                · simp at h
                · obtain rfl : state2 = state := by
                    injection hst.symm
                  rcases hrest with h | ⟨holding2, hfind2, hrest⟩
                  · rw [hfind] at h
                    simp at h
                  · rw [hfind] at hfind2
                    obtain rfl : holding2 = holding := by
                      injection hfind2.symm
                    rcases hrest with h | h | ⟨ownerId2, how2, hpfind2⟩
                    · rw [how] at h
                      simp at h
                    · rw [how] at h
                      injection h with hv
                      exact hne hv
                    · rw [how] at how2
                      obtain rfl : ownerId2 = ownerId := by
                        injection how2.symm
                      rw [hpfind] at hpfind2
                      simp at hpfind2
            · intro player h
              simp only [Bool.false_eq_true, if_false] at h
              obtain rfl : player0 = player := by
                injection h
              exact ⟨state, holding, ownerId, rfl, hfind, how, hne, hpfind⟩

/-- Witness for C10 at a state whose holding is owned by an existing player
with a nonempty id: getHoldingOwner returns that player and the amended
characterization produces the owning chain. -/
theorem getHoldingOwner_spec_witness :
    ∃ state holding ownerId,
      some (GameState.mk [⟨"p2", 0, 0, TitleType.baron, [], [], false, ["t1"], [], 0, [], []⟩]
          [⟨"t1", HoldingType.town, some "X", none, 3, 100, some "p2", 0, 0, 0, []⟩]) =
        some state ∧
      state.holdings.find? (fun h => h.id == "t1") = some holding ∧
      holding.owner_id = some ownerId ∧ ownerId ≠ "" ∧
      state.players.find? (fun p => p.id == ownerId) =
        some ⟨"p2", 0, 0, TitleType.baron, [], [], false, ["t1"], [], 0, [], []⟩ := by
  exact (getHoldingOwner_spec
    (some (GameState.mk [⟨"p2", 0, 0, TitleType.baron, [], [], false, ["t1"], [], 0, [], []⟩]
      [⟨"t1", HoldingType.town, some "X", none, 3, 100, some "p2", 0, 0, 0, []⟩])) "t1").2
    ⟨"p2", 0, 0, TitleType.baron, [], [], false, ["t1"], [], 0, [], []⟩ rfl

end Kingdom
